import Mathlib

/-!
Shallow embedding of the Lexi case-search proxy (app/services/jagriti_client.py,
app/core/cache.py, app/routes/cases.py) and proofs of the specified properties.

Conventions:
* Python exceptions are modelled with `Except`.
* Wall-clock time is modelled as an explicit rational-number parameter.
* External capabilities (the HTTP transport, the dateutil date parser, the
  urllib URL joiner) are modelled as oracle parameters, exactly as the code
  treats them: the code under test only branches on their results.
-/

namespace Lexi

/-- Decidable equality of `Except` results, for concrete evaluation. -/
instance exceptDecEq {ε α : Type} [DecidableEq ε] [DecidableEq α] :
    DecidableEq (Except ε α)
  | .ok a, .ok b =>
      if h : a = b then .isTrue (h ▸ rfl) else .isFalse (by simp [h])
  | .error a, .error b =>
      if h : a = b then .isTrue (h ▸ rfl) else .isFalse (by simp [h])
  | .ok _, .error _ => .isFalse (by simp)
  | .error _, .ok _ => .isFalse (by simp)

/-! ## Data model (app/models/schemas.py) -/

/-- Model of `StateInfo` from app/models/schemas.py. -/
structure StateInfo where
  state_text : String
  state_id : String
deriving DecidableEq, Repr

/-- Model of `CommissionInfo` from app/models/schemas.py. -/
structure CommissionInfo where
  commission_text : String
  commission_id : String
  state_id : String
deriving DecidableEq, Repr

/-- Model of `CaseInfo` from app/models/schemas.py. -/
structure CaseInfo where
  case_number : String
  case_stage : String
  filing_date : String
  complainant : String
  complainant_advocate : String
  respondent : String
  respondent_advocate : String
  document_link : String
deriving DecidableEq, Repr

/-! ## String helpers

Python's substring operator `sub in s` is modelled by an explicit character
list scan. -/

/-- Predicate `charsStartWith sub l`: true when `sub` is a leading segment of `l`. -/
def charsStartWith : List Char → List Char → Bool
  | [], _ => true
  | _ :: _, [] => false
  | a :: as, b :: bs => (a == b) && charsStartWith as bs

/-- Predicate `charsContain sub l`: true when `sub` occurs contiguously inside `l`. -/
def charsContain (sub : List Char) : List Char → Bool
  | [] => sub.isEmpty
  | c :: t => charsStartWith sub (c :: t) || charsContain sub t

/-- Python `sub in s` on strings. -/
def strContains (s sub : String) : Bool :=
  charsContain sub.data s.data

/-- Python `s.startswith(p)`. -/
def pyStartsWith (s p : String) : Bool :=
  charsStartWith p.data s.data

/-- Leading-whitespace removal on character lists. -/
def dropLeadingWS : List Char → List Char
  | [] => []
  | c :: t => if c.isWhitespace then dropLeadingWS t else c :: t

/-- Python `s.strip()`: surrounding whitespace removed. -/
def pyStrip (s : String) : String :=
  ⟨(dropLeadingWS (dropLeadingWS s.data).reverse).reverse⟩

/-- ASCII lower-casing of one character, as Python `str.lower` acts on the
ASCII range. -/
def charLower (c : Char) : Char :=
  if 'A' ≤ c && c ≤ 'Z' then Char.ofNat (c.toNat + 32) else c

/-- ASCII upper-casing of one character, as Python `str.upper` acts on the
ASCII range. -/
def charUpper (c : Char) : Char :=
  if 'a' ≤ c && c ≤ 'z' then Char.ofNat (c.toNat - 32) else c

/-- Python `s.lower()`. -/
def pyLower (s : String) : String :=
  ⟨s.data.map charLower⟩

/-- Python `s.upper()`. -/
def pyUpper (s : String) : String :=
  ⟨s.data.map charUpper⟩

/-- Splitting a character list on one separator character. -/
def splitCharsOn (sep : Char) : List Char → List (List Char)
  | [] => [[]]
  | c :: t =>
      if c == sep then [] :: splitCharsOn sep t
      else
        match splitCharsOn sep t with
        | h :: r => (c :: h) :: r
        | [] => [[c]]

/-- Parsing a non-empty all-digit character list as a number. -/
def digitsToNat? (l : List Char) : Option Nat :=
  if !l.isEmpty && l.all Char.isDigit then
    some (l.foldl (fun a c => a * 10 + (c.toNat - 48)) 0)
  else none

/-! ## TTL cache (app/core/cache.py, class TTLCache)

The cache dictionary is a key-unique association list; `time.time()` is an
explicit `now : ℚ` argument. -/

/-- One cache dictionary entry, as built by `TTLCache.set`. -/
structure CacheEntry (α : Type) where
  value : α
  expires_at : ℚ
  created_at : ℚ

/-- The `_cache` dictionary of `TTLCache`. -/
abbrev TTLCache (α : Type) : Type := List (String × CacheEntry α)

/-- Removal of a key, as `del self._cache[key]` on a dictionary. -/
def cacheErase {α : Type} (c : TTLCache α) (key : String) : TTLCache α :=
  List.filter (fun p => p.1 != key) c

/-- Method `TTLCache.set`: store `value` under `key`, expiring `ttl` seconds after
`now`. -/
def cacheSet {α : Type} (c : TTLCache α) (key : String) (value : α)
    (ttl : ℚ) (now : ℚ) : TTLCache α :=
  (key, ⟨value, now + ttl, now⟩) :: cacheErase c key

/-- Method `TTLCache.get` at time `now`: returns the stored value if present and
unexpired; an expired entry is deleted and `none` is returned.  The second
component is the cache state after the call. -/
def cacheGet {α : Type} (c : TTLCache α) (key : String) (now : ℚ) :
    Option α × TTLCache α :=
  match List.lookup key c with
  | none => (none, c)
  | some entry =>
      if entry.expires_at < now then (none, cacheErase c key)
      else (some entry.value, c)

/-! ## Resilient transport (JagritiClient._make_request and
JagritiClient._check_for_captcha) -/

/-- The captcha marker list of `_check_for_captcha`. -/
def captchaIndicators : List String :=
  ["captcha",
   "verify you are human",
   "security check",
   "recaptcha",
   "cloudflare",
   "are you human",
   "please complete the security check"]

/-- Check `any(indicator in content for indicator in captcha_indicators)` where
`content = response.text.lower()`. -/
def containsCaptchaMarker (body : String) : Bool :=
  captchaIndicators.any (fun ind => strContains (pyLower body) ind)

/-- An HTTP response as seen by `_make_request`. -/
structure HttpResponse where
  statusCode : Nat
  body : String
deriving DecidableEq, Repr

/-- What one attempt of the underlying transport does, before the wrapper's
own checks: raise a timeout, raise a transport error, or deliver a response. -/
inductive AttemptOutcome where
  | timeoutErr : AttemptOutcome
  | transportErr : AttemptOutcome
  | response (r : HttpResponse) : AttemptOutcome
deriving DecidableEq, Repr

/-- The exceptions that can escape the body of one retry-loop iteration. -/
inductive AttemptExc where
  | timeoutExc : AttemptExc
  | transportExc : AttemptExc
  | captchaExc : AttemptExc
deriving DecidableEq, Repr

/-- The retry predicate of `_make_request`:
`retry_if_exception_type((httpx.TimeoutException, httpx.TransportError))`;
`JagritiCaptchaError` is not retried. -/
def isRetryableExc : AttemptExc → Bool
  | .timeoutExc => true
  | .transportExc => true
  | .captchaExc => false

/-- One iteration of the retry-loop body: make the transport call, run
`_check_for_captcha`, then convert HTTP 429 and HTTP 5xx into
`httpx.TransportError` as the code does. -/
def runAttempt : AttemptOutcome → Except AttemptExc HttpResponse
  | .timeoutErr => .error .timeoutExc
  | .transportErr => .error .transportExc
  | .response r =>
      if containsCaptchaMarker r.body then .error .captchaExc
      else if r.statusCode == 429 then .error .transportExc
      else if 500 ≤ r.statusCode then .error .transportExc
      else .ok r

/-- Whether a transport outcome produces a retryable exception. -/
def isRetryableOutcome (o : AttemptOutcome) : Bool :=
  match runAttempt o with
  | .error e => isRetryableExc e
  | .ok _ => false

/-- The `AsyncRetrying` loop with `stop_after_attempt` semantics.  `oracle i`
is what the transport does on the i-th attempt (0-based), `made` counts
attempts already made, `fuel` is the attempts still allowed.  Both branches
report how many attempts were consumed in total. -/
def retryLoop (oracle : Nat → AttemptOutcome) (made : Nat) :
    Nat → Except (AttemptExc × Nat) (HttpResponse × Nat)
  | 0 => .error (.transportExc, made)
  | fuel + 1 =>
      match runAttempt (oracle made) with
      | .ok r => .ok (r, made + 1)
      | .error e =>
          if isRetryableExc e && fuel != 0 then retryLoop oracle (made + 1) fuel
          else .error (e, made + 1)

/-- The error taxonomy surfaced by `_make_request`'s outer `except` clause. -/
inductive JagritiError where
  | captchaRequired : JagritiError
  | timeoutError : JagritiError
  | apiError : JagritiError
deriving DecidableEq, Repr

/-- The outer `except` clause of `_make_request`: a captcha error is
re-raised, a timeout-like error becomes `JagritiTimeoutError`, everything
else becomes `JagritiAPIError`. -/
def classifyFinalExc : AttemptExc → JagritiError
  | .captchaExc => .captchaRequired
  | .timeoutExc => .timeoutError
  | .transportExc => .apiError

/-- Model of `_make_request` with `stop_after_attempt(self.max_retries + 1)`.
On success the second component is the number of attempts consumed; on
failure it is the number of attempts consumed before the error surfaced. -/
def makeRequest (maxRetries : Nat) (oracle : Nat → AttemptOutcome) :
    Except (JagritiError × Nat) (HttpResponse × Nat) :=
  match retryLoop oracle 0 (maxRetries + 1) with
  | .ok rn => .ok rn
  | .error (e, n) => .error (classifyFinalExc e, n)

/-! ## Date and link normalization (JagritiClient._normalize_date,
JagritiClient._normalize_document_link) -/

/-- A calendar date as produced by the external date parser. -/
structure YMD where
  year : Nat
  month : Nat
  day : Nat
deriving DecidableEq, Repr

/-- Two-digit zero padding, as in Python's `date.isoformat()`. -/
def pad2 (n : Nat) : String :=
  if n < 10 then "0" ++ toString n else toString n

/-- Four-digit zero padding, as in Python's `date.isoformat()`. -/
def pad4 (n : Nat) : String :=
  if n < 10 then "000" ++ toString n
  else if n < 100 then "00" ++ toString n
  else if n < 1000 then "0" ++ toString n
  else toString n

/-- Rendering `date.isoformat()` for the parsed date. -/
def isoOfYMD (d : YMD) : String :=
  pad4 d.year ++ "-" ++ pad2 d.month ++ "-" ++ pad2 d.day

/-- Model of `_normalize_date`, parameterized by the external dateutil parser
(`date_parser.parse(·, dayfirst=True)`, returning `none` where dateutil
raises): empty or all-whitespace input returns `""`; otherwise the trimmed
input is parsed, and on parse failure the trimmed input is returned. -/
def normalizeDate (parse : String → Option YMD) (s : String) : String :=
  if pyStrip s == "" then ""
  else
    match parse (pyStrip s) with
    | some d => isoOfYMD d
    | none => pyStrip s

/-- Model of the external dateutil day-first parser restricted to purely
numeric `d/m/y` slash dates, the format exercised by the specified example.
Day and month are range-checked; everything else fails to parse. -/
def dayFirstSlashParse (s : String) : Option YMD :=
  match splitCharsOn '/' s.data with
  | [ds, ms, ys] =>
      match digitsToNat? ds, digitsToNat? ms, digitsToNat? ys with
      | some d, some m, some y =>
          if 1 ≤ d && d ≤ 31 && 1 ≤ m && m ≤ 12 then some ⟨y, m, d⟩ else none
      | _, _, _ => none
  | _ => none

/-- Model of `_normalize_document_link`, parameterized by the external
`urllib.parse.urljoin` capability: blank input yields `""`, absolute
http/https links pass through, anything else is joined with the base URL. -/
def normalizeDocumentLink (joinUrl : String → String → String)
    (baseUrl link : String) : String :=
  if pyStrip link == "" then ""
  else
    let l := pyStrip link
    if pyStartsWith l "http://" || pyStartsWith l "https://" then l
    else joinUrl baseUrl l

/-! ## Row parsing (JagritiClient._parse_case_row and the row loop of
JagritiClient.search_cases) -/

/-- One `<td>`/`<th>` cell of a result row: its stripped text and the href of
its first anchor, when one exists. -/
structure Cell where
  text : String
  linkHref : Option String
deriving DecidableEq, Repr

/-- Expression `cells[i].get_text(strip=True) if len(cells) > i else ""`. -/
def cellText (cells : List Cell) (i : Nat) : String :=
  ((cells.get? i).map Cell.text).getD ""

/-- Model of `_parse_case_row`: a row with fewer than 7 cells yields `none`;
otherwise the seven leading cells map positionally to the textual fields,
the filing date is normalized, and the last cell is searched for a
hyperlink (an empty href is ignored, like Python's falsy check). -/
def parseCaseRow (joinUrl : String → String → String) (baseUrl : String)
    (dateParse : String → Option YMD) (cells : List Cell) : Option CaseInfo :=
  if cells.length < 7 then none
  else
    let document_link :=
      match cells.getLast? with
      | some lastCell =>
          match lastCell.linkHref with
          | some href =>
              if href == "" then ""
              else normalizeDocumentLink joinUrl baseUrl href
          | none => ""
      | none => ""
    some
      { case_number := cellText cells 0
        case_stage := cellText cells 1
        filing_date := normalizeDate dateParse (cellText cells 2)
        complainant := cellText cells 3
        complainant_advocate := cellText cells 4
        respondent := cellText cells 5
        respondent_advocate := cellText cells 6
        document_link := document_link }

/-- The row loop of `search_cases`: each data row is parsed and the
successfully parsed rows are collected in order. -/
def parseTableRows (joinUrl : String → String → String) (baseUrl : String)
    (dateParse : String → Option YMD) (rows : List (List Cell)) :
    List CaseInfo :=
  rows.filterMap (parseCaseRow joinUrl baseUrl dateParse)

/-! ## Total-count computation (tail of JagritiClient.search_cases) -/

/-- The total-count logic of `search_cases` once a results table was found:
`total_count` starts at 0, is replaced by the first integer of the
pagination/summary text when such text is present with at least one integer,
and if it is still 0 it is estimated from the number of parsed cases.
`summaryInts` is `none` when no pagination/summary element was found, and
`some l` with `l` the integers found in its text otherwise. -/
def computeTotalCount (summaryInts : Option (List Int)) (numCases : Int)
    (page : Int) (perPage : Int) : Int :=
  let total0 : Int :=
    match summaryInts with
    | some (n :: _) => n
    | _ => 0
  if total0 = 0 then
    if numCases = perPage then numCases * page + 1
    else numCases + (page - 1) * perPage
  else total0

/-! ## Identity resolution (JagritiClient.resolve_state_and_commission_ids) -/

/-- The exact-match test of the resolver's first loop:
`candidate.upper() == query.upper()`. -/
def exactNameMatch (query t : String) : Bool :=
  pyUpper t == pyUpper query

/-- The fuzzy-match test of the resolver's second loop:
`query.upper() in candidate.upper() or candidate.upper() in query.upper()`. -/
def fuzzyNameMatch (query t : String) : Bool :=
  strContains (pyUpper t) (pyUpper query) || strContains (pyUpper query) (pyUpper t)

/-- Python falsiness of an optional string: `None` and `""` are falsy. -/
def optFalsy : Option String → Bool
  | none => true
  | some s => s == ""

/-- One tier of `resolve_state_and_commission_ids` over `(text, id)` pairs:
a first loop breaks on the first exact match, a second loop runs when the
result so far is falsy and breaks on the first fuzzy match, and a falsy
final result raises `ValueError` carrying every candidate text. -/
def resolveId (items : List (String × String)) (query : String) :
    Except (List String) String :=
  let exact := (items.find? (fun it => exactNameMatch query it.1)).map Prod.snd
  let resolved :=
    if optFalsy exact then
      (items.find? (fun it => fuzzyNameMatch query it.1)).map Prod.snd
    else exact
  if optFalsy resolved then .error (items.map Prod.fst)
  else .ok (resolved.getD "")

/-- The resolver as worded by the specification: exact case-insensitive
match first; when none exists, the first case-insensitive substring match in
source order; when still none, `NotFound` carrying every candidate name. -/
def specResolveId (items : List (String × String)) (query : String) :
    Except (List String) String :=
  match items.find? (fun it => exactNameMatch query it.1) with
  | some it => .ok it.2
  | none =>
      match items.find? (fun it => fuzzyNameMatch query it.1) with
      | some it => .ok it.2
      | none => .error (items.map Prod.fst)

/-- Model of `resolve_state_and_commission_ids`: resolve the state over the fetched
state list, then resolve the commission over the commissions fetched for the
resolved state (`commissionsOf` stands for `fetch_commissions`). -/
def resolveStateAndCommissionIds (states : List StateInfo)
    (commissionsOf : String → List CommissionInfo)
    (state_text commission_text : String) :
    Except (List String) (String × String) :=
  match resolveId (states.map fun s => (s.state_text, s.state_id)) state_text with
  | .error names => .error names
  | .ok sid =>
      match resolveId ((commissionsOf sid).map fun c =>
          (c.commission_text, c.commission_id)) commission_text with
      | .error names => .error names
      | .ok cid => .ok (sid, cid)

/-- The two-tier resolver as worded by the specification, built on
`specResolveId` for both tiers. -/
def specResolveStateAndCommissionIds (states : List StateInfo)
    (commissionsOf : String → List CommissionInfo)
    (state_text commission_text : String) :
    Except (List String) (String × String) :=
  match specResolveId (states.map fun s => (s.state_text, s.state_id)) state_text with
  | .error names => .error names
  | .ok sid =>
      match specResolveId ((commissionsOf sid).map fun c =>
          (c.commission_text, c.commission_id)) commission_text with
      | .error names => .error names
      | .ok cid => .ok (sid, cid)

/-! ## Cached fetches (JagritiClient.fetch_states,
JagritiClient.fetch_commissions) -/

/-- Model of `fetch_states`, abstracted over the cache read for `"jagriti_states"`
and over what the network/parsing path would produce: the cached value is
used only when truthy (present and non-empty), otherwise a fresh fetch
happens.  The boolean reports whether the network fetch was issued. -/
def fetchStatesModel (cached : Option (List StateInfo))
    (fetched : List StateInfo) : List StateInfo × Bool :=
  match cached with
  | some l => if !l.isEmpty then (l, false) else (fetched, true)
  | none => (fetched, true)

/-- The three fallback commissions fabricated by `fetch_commissions` when
parsing yields none, with ids `f"{state_id}_{i+1}"`. -/
def fallbackCommissions (state_id : String) : List CommissionInfo :=
  (["District Consumer Disputes Redressal Commission",
    "DCDRC",
    "District Consumer Court"] : List String).enum.map
    (fun p => ⟨p.2, state_id ++ "_" ++ toString (p.1 + 1), state_id⟩)

/-- Model of `fetch_commissions` for one state, abstracted over the cache read for
its key and over the commissions the response parsing yields: a truthy
cached value is returned as-is; otherwise the parsed commissions are used,
replaced by the three fallbacks when parsing yielded none, and the result is
written to the cache.  The second component is the value written to the
cache (`none` when the cached path was taken). -/
def fetchCommissionsModel (state_id : String)
    (cached : Option (List CommissionInfo))
    (parsed : List CommissionInfo) :
    List CommissionInfo × Option (List CommissionInfo) :=
  match cached with
  | some l =>
      if !l.isEmpty then (l, none)
      else
        let commissions := if parsed.isEmpty then fallbackCommissions state_id else parsed
        (commissions, some commissions)
  | none =>
      let commissions := if parsed.isEmpty then fallbackCommissions state_id else parsed
      (commissions, some commissions)

/-! ## Error plumbing of search_cases and of the route handler
(_search_cases_common in app/routes/cases.py) -/

/-- The exceptions that can cross the `search_cases` boundary, with the
message where the route inspects it. -/
inductive JagritiExc where
  | captcha (msg : String) : JagritiExc
  | timeout (msg : String) : JagritiExc
  | api (msg : String) : JagritiExc
  | valueErr (msg : String) : JagritiExc
deriving DecidableEq, Repr

/-- The final `except` clause of `search_cases`: the three Jagriti errors
pass through, every other exception — including the resolver's
`ValueError` — is wrapped into `JagritiAPIError`. -/
def searchCasesWrap : JagritiExc → JagritiExc
  | .captcha m => .captcha m
  | .timeout m => .timeout m
  | .api m => .api m
  | .valueErr m => .api ("Failed to search cases: " ++ m)

/-- Model of `search_cases` reduced to its error plumbing: first the resolver runs
(raising `ValueError msg` on failure), then the transport/parsing phase runs;
any exception is filtered through the final `except` clause. -/
def searchCasesRun (resolveRes : Except String (String × String))
    (transportRes : Except JagritiExc Unit) : Except JagritiExc Unit :=
  match resolveRes with
  | .error msg => .error (searchCasesWrap (.valueErr msg))
  | .ok _ =>
      match transportRes with
      | .error e => .error (searchCasesWrap e)
      | .ok u => .ok u

/-- The HTTP outcome produced by `_search_cases_common`. -/
inductive RouteOutcome where
  | success : RouteOutcome
  | badRequest (detail : String) : RouteOutcome
  | captchaBlocked : RouteOutcome
  | gatewayTimeout (detail : String) : RouteOutcome
  | badGateway (detail : String) : RouteOutcome
deriving DecidableEq, Repr

/-- The `except` ladder of `_search_cases_common`: `ValueError` → 400 with
the error's message, `JagritiCaptchaError` → 503, `JagritiTimeoutError` →
504, `JagritiAPIError` → 502 with a fixed generic detail. -/
def routeOutcome (r : Except JagritiExc Unit) : RouteOutcome :=
  match r with
  | .ok _ => .success
  | .error (.valueErr m) => .badRequest m
  | .error (.captcha _) => .captchaBlocked
  | .error (.timeout _) =>
      .gatewayTimeout "Request to Jagriti timed out. Please try again later."
  | .error (.api _) =>
      .badGateway "Error communicating with Jagriti. Please try again later."

/-- The `str(e)` rendered by the resolver's state-level `ValueError`. -/
def notFoundStateMsg (state_text : String) (names : List String) : String :=
  "State '" ++ state_text ++ "' not found. Available: " ++ toString names

/-- The route outcome of one full search call, composing the resolver, the
`search_cases` error plumbing, and the route's exception ladder. -/
def searchRouteOutcome (states : List StateInfo)
    (commissionsOf : String → List CommissionInfo)
    (state_text commission_text : String)
    (transportRes : Except JagritiExc Unit) : RouteOutcome :=
  routeOutcome (searchCasesRun
    (match resolveStateAndCommissionIds states commissionsOf state_text commission_text with
     | .error names => .error (notFoundStateMsg state_text names)
     | .ok p => .ok p)
    transportRes)

/-! ## Shared lemmas -/

/-- A retryable outcome produces a retryable exception. -/
theorem retryable_outcome_error {o : AttemptOutcome}
    (h : isRetryableOutcome o = true) :
    ∃ e, runAttempt o = .error e ∧ isRetryableExc e = true := by
  unfold isRetryableOutcome at h
  cases hr : runAttempt o with
  | ok r => rw [hr] at h; exact absurd h (by simp)
  | error e => rw [hr] at h; exact ⟨e, rfl, h⟩

/-- If the first `R` attempts fail retryably and attempt `R` (0-based)
succeeds within the budget, the loop returns that response after `R + 1`
attempts. -/
theorem retryLoop_ok (R : Nat) : ∀ (oracle : Nat → AttemptOutcome)
    (made fuel : Nat) (r : HttpResponse),
    R < fuel →
    (∀ i < R, isRetryableOutcome (oracle (made + i)) = true) →
    runAttempt (oracle (made + R)) = .ok r →
    retryLoop oracle made fuel = .ok (r, made + R + 1) := by
  induction R with
  | zero =>
      intro oracle made fuel r hfuel _ hsucc
      match fuel, hfuel with
      | f + 1, _ =>
        simp only [retryLoop]
        rw [show made + 0 = made from rfl] at hsucc
        rw [hsucc]
  | succ R ih =>
      intro oracle made fuel r hfuel hfail hsucc
      match fuel, hfuel with
      | f + 1, hfuel =>
        have hf : R < f := by omega
        obtain ⟨e, he, hre⟩ := retryable_outcome_error
          (hfail 0 (Nat.succ_pos R))
        rw [show made + 0 = made from rfl] at he
        simp only [retryLoop, he, hre]
        have hfne : (f != 0) = true := by
          simp only [bne_iff_ne, ne_eq]; omega
        rw [hfne]
        simp only [Bool.and_self, if_true]
        have := ih oracle (made + 1) f r hf
          (fun i hi => by
            have := hfail (i + 1) (by omega)
            rwa [show made + (i + 1) = made + 1 + i from by omega] at this)
          (by rwa [show made + 1 + R = made + (R + 1) from by omega])
        rw [this]
        congr 2
        omega

/-- If attempt `j` (0-based) raises a non-retryable exception after `j`
retryable failures, the loop surfaces that exception after exactly `j + 1`
attempts, whatever budget remains. -/
theorem retryLoop_stop (j : Nat) : ∀ (oracle : Nat → AttemptOutcome)
    (made fuel : Nat) (e : AttemptExc),
    j < fuel →
    (∀ i < j, isRetryableOutcome (oracle (made + i)) = true) →
    runAttempt (oracle (made + j)) = .error e →
    isRetryableExc e = false →
    retryLoop oracle made fuel = .error (e, made + j + 1) := by
  induction j with
  | zero =>
      intro oracle made fuel e hfuel _ herr hnr
      match fuel, hfuel with
      | f + 1, _ =>
        rw [show made + 0 = made from rfl] at herr
        simp [retryLoop, herr, hnr]
  | succ j ih =>
      intro oracle made fuel e hfuel hfail herr hnr
      match fuel, hfuel with
      | f + 1, hfuel =>
        have hf : j < f := by omega
        obtain ⟨e0, he0, hre0⟩ := retryable_outcome_error
          (hfail 0 (Nat.succ_pos j))
        rw [show made + 0 = made from rfl] at he0
        have hfne : (f != 0) = true := by
          simp only [bne_iff_ne, ne_eq]; omega
        simp only [retryLoop, he0, hre0, hfne, Bool.and_self, if_true]
        have := ih oracle (made + 1) f e hf
          (fun i hi => by
            have := hfail (i + 1) (by omega)
            rwa [show made + (i + 1) = made + 1 + i from by omega] at this)
          (by rwa [show made + 1 + j = made + (j + 1) from by omega])
          hnr
        rw [this]
        congr 2
        omega

/-- If every attempt in the budget fails retryably, the loop surfaces the
last attempt's exception after consuming the whole budget. -/
theorem retryLoop_exhaust : ∀ (fuel : Nat) (oracle : Nat → AttemptOutcome)
    (made : Nat) (e : AttemptExc),
    0 < fuel →
    (∀ i < fuel, isRetryableOutcome (oracle (made + i)) = true) →
    runAttempt (oracle (made + (fuel - 1))) = .error e →
    retryLoop oracle made fuel = .error (e, made + fuel) := by
  intro fuel
  induction fuel with
  | zero => intro _ _ _ h; omega
  | succ f ih =>
      intro oracle made e _ hfail hlast
      obtain ⟨e0, he0, hre0⟩ := retryable_outcome_error
        (hfail 0 (Nat.succ_pos f))
      rw [show made + 0 = made from rfl] at he0
      match f with
      | 0 =>
          rw [show made + (0 + 1 - 1) = made from by omega] at hlast
          rw [hlast] at he0
          cases he0
          simp only [retryLoop, hlast]
          simp
      | f' + 1 =>
          have hfne : (f' + 1 != 0) = true := by simp
          have := ih oracle (made + 1) e (Nat.succ_pos f')
            (fun i hi => by
              have := hfail (i + 1) (by omega)
              rwa [show made + (i + 1) = made + 1 + i from by omega] at this)
            (by rwa [show made + 1 + (f' + 1 - 1) = made + (f' + 1 + 1 - 1) from by omega])
          have harith : made + (f' + 1 + 1) = made + 1 + (f' + 1) := by omega
          rw [harith, ← this]
          simp only [retryLoop, he0, hre0, hfne, Bool.and_self, if_true]

/-- Erasing a key removes it from lookup range. -/
theorem lookup_cacheErase {α : Type} (c : TTLCache α) (k : String) :
    List.lookup k (cacheErase c k) = none := by
  induction c with
  | nil => rfl
  | cons p t ih =>
      by_cases h : p.1 = k
      · simp only [cacheErase, List.filter] at ih ⊢
        rw [show (p.1 != k) = false from by simp [h]]
        exact ih
      · simp only [cacheErase, List.filter] at ih ⊢
        rw [show (p.1 != k) = true from by simp [h]]
        rw [List.lookup, show (k == p.1) = false from by simp [Ne.symm h]]
        exact ih

/-- Looking up the key just set finds the freshly written entry. -/
theorem lookup_cacheSet {α : Type} (c : TTLCache α) (k : String) (v : α)
    (ttl now : ℚ) :
    List.lookup k (cacheSet c k v ttl now) =
      some ⟨v, now + ttl, now⟩ := by
  simp [cacheSet, List.lookup]

/-- With non-empty candidate ids, one resolver tier behaves exactly as the
specification words it: first exact match wins, else first fuzzy match in
source order, else the error carries every candidate name.  (With an empty
id the code's Python falsiness test would fall through, which is why the
hypothesis is needed.) -/
theorem resolveId_eq_specResolveId (items : List (String × String))
    (query : String) (hne : ∀ it ∈ items, it.2 ≠ "") :
    resolveId items query = specResolveId items query := by
  unfold resolveId specResolveId
  cases hfe : items.find? (fun it => exactNameMatch query it.1) with
  | some it =>
      have hmem := List.mem_of_find?_eq_some hfe
      have hid : it.2 ≠ "" := hne it hmem
      simp [hfe, optFalsy, hid]
  | none =>
      cases hff : items.find? (fun it => fuzzyNameMatch query it.1) with
      | some it =>
          have hmem := List.mem_of_find?_eq_some hff
          have hid : it.2 ≠ "" := hne it hmem
          simp [hfe, hff, optFalsy, hid]
      | none =>
          simp [hfe, hff, optFalsy]

/-- The fabricated fallback commissions carry the synthetic ids
`sid_1`, `sid_2`, `sid_3`. -/
theorem fallbackCommissions_ids (sid : String) :
    (fallbackCommissions sid).map CommissionInfo.commission_id =
      [sid ++ "_1", sid ++ "_2", sid ++ "_3"] := by
  have h1 : ("_" : String) ++ toString (0 + 1 : Nat) = "_1" := by decide
  have h2 : ("_" : String) ++ toString (1 + 1 : Nat) = "_2" := by decide
  have h3 : ("_" : String) ++ toString (2 + 1 : Nat) = "_3" := by decide
  simp only [fallbackCommissions, List.enum, List.enumFrom, List.map,
    String.append_assoc, h1, h2, h3]

/-- The fabricated fallback list is never empty. -/
theorem fallbackCommissions_ne_nil (sid : String) :
    fallbackCommissions sid ≠ [] := by
  simp [fallbackCommissions, List.enum, List.enumFrom]

/-! ## Claim theorems -/

/-- C1: whenever the transport delivers an HTTP response whose body contains
one of the fixed captcha markers (matched case-insensitively), `_make_request`
raises `JagritiCaptchaError` at that very attempt with zero retry attempts:
however many earlier attempts failed retryably and however much retry budget
remains, the loop consumes exactly `j + 1` attempts and stops. -/
theorem captcha_is_terminal (maxRetries j : Nat)
    (oracle : Nat → AttemptOutcome) (r : HttpResponse)
    (hj : j ≤ maxRetries)
    (hpre : ∀ i < j, isRetryableOutcome (oracle i) = true)
    (hresp : oracle j = .response r)
    (hmark : containsCaptchaMarker r.body = true) :
    makeRequest maxRetries oracle = .error (.captchaRequired, j + 1) := by
  have hrun : runAttempt (oracle j) = .error .captchaExc := by
    rw [hresp]
    simp [runAttempt, hmark]
  have hloop := retryLoop_stop j oracle 0 (maxRetries + 1) .captchaExc
    (by omega)
    (fun i hi => by simpa using hpre i hi)
    (by simpa using hrun)
    rfl
  simp only [makeRequest, hloop, classifyFinalExc, Nat.zero_add]

/-- Witness for C1: one timeout, then a response whose body carries a
captcha marker in mixed case; the request fails as `captchaRequired` after
exactly 2 attempts even though the budget allowed 6. -/
theorem captcha_is_terminal_witness :
    makeRequest 5
      (fun i => if i = 0 then .timeoutErr
        else .response ⟨200, "Please complete the SECURITY Check"⟩) =
      .error (.captchaRequired, 2) :=
  captcha_is_terminal 5 1
    (fun i => if i = 0 then .timeoutErr
      else .response ⟨200, "Please complete the SECURITY Check"⟩)
    ⟨200, "Please complete the SECURITY Check"⟩
    (by decide) (by decide) (by decide) (by decide)

/-- C2: with `max_retries = maxRetries ≥ R`, a transport failing retryably
(network error, timeout, HTTP 429 or HTTP 5xx) on exactly the first `R`
attempts and succeeding on attempt `R + 1` makes `_make_request` succeed
after exactly `R + 1` attempts; and a transport failing retryably on every
one of the `maxRetries + 1` budgeted attempts surfaces an error
(`JagritiTimeoutError` or `JagritiAPIError`) after consuming the whole
budget. -/
theorem retry_budget (R maxRetries : Nat)
    (oracle oracle2 : Nat → AttemptOutcome) (r : HttpResponse) (e : AttemptExc)
    (hR : R ≤ maxRetries)
    (hfail : ∀ i < R, isRetryableOutcome (oracle i) = true)
    (hsucc : runAttempt (oracle R) = .ok r)
    (hfail2 : ∀ i ≤ maxRetries, isRetryableOutcome (oracle2 i) = true)
    (hlast : runAttempt (oracle2 maxRetries) = .error e) :
    makeRequest maxRetries oracle = .ok (r, R + 1) ∧
    makeRequest maxRetries oracle2 = .error (classifyFinalExc e, maxRetries + 1) ∧
    (classifyFinalExc e = .timeoutError ∨ classifyFinalExc e = .apiError) := by
  refine ⟨?_, ?_, ?_⟩
  · have hloop := retryLoop_ok R oracle 0 (maxRetries + 1) r
      (by omega)
      (fun i hi => by simpa using hfail i hi)
      (by simpa using hsucc)
    simp only [makeRequest, hloop, Nat.zero_add]
  · have hloop := retryLoop_exhaust (maxRetries + 1) oracle2 0 e
      (Nat.succ_pos maxRetries)
      (fun i hi => by simpa using hfail2 i (by omega))
      (by simpa using hlast)
    simp only [makeRequest, hloop, Nat.zero_add]
  · obtain ⟨e', he', hre'⟩ := retryable_outcome_error
      (hfail2 maxRetries (Nat.le_refl _))
    rw [hlast] at he'
    cases he'
    cases e <;> simp_all [isRetryableExc, classifyFinalExc]

/-- Witness for C2: two transport failures then success gives success after
3 attempts with `max_retries = 2`; uniform timeouts exhaust all 3 attempts
and surface `timeoutError`. -/
theorem retry_budget_witness :
    makeRequest 2
      (fun i => if i < 2 then .transportErr else .response ⟨200, "results page"⟩) =
      .ok (⟨200, "results page"⟩, 3) ∧
    makeRequest 2 (fun _ => .timeoutErr) = .error (.timeoutError, 3) ∧
    (JagritiError.timeoutError = .timeoutError ∨
      JagritiError.timeoutError = .apiError) := by
  have h := retry_budget 2 2
    (fun i => if i < 2 then .transportErr else .response ⟨200, "results page"⟩)
    (fun _ => .timeoutErr)
    ⟨200, "results page"⟩ .timeoutExc
    (by decide) (by decide) (by decide) (by decide) (by decide)
  exact h

/-- C3: setting key `k` to `v` with ttl `t > 0` at time `now` makes `get`
return `v` at any time strictly before `now + t`; at any time strictly after
`now + t` the entry has expired, `get` returns `none`, and the entry has
been removed from the cache state (lazy eviction on read). -/
theorem cache_set_get_ttl {α : Type} (c : TTLCache α) (k : String) (v : α)
    (t now e1 e2 : ℚ)
    (ht : 0 < t) (h1 : e1 < t) (h2 : t < e2) :
    (cacheGet (cacheSet c k v t now) k (now + e1)).1 = some v ∧
    (cacheGet (cacheSet c k v t now) k (now + e2)).1 = none ∧
    List.lookup k (cacheGet (cacheSet c k v t now) k (now + e2)).2 = none := by
  have hlook := lookup_cacheSet c k v t now
  refine ⟨?_, ?_, ?_⟩
  · have hfresh : ¬ (now + t < now + e1) := by
      intro hc
      exact absurd (lt_of_add_lt_add_left hc) (not_lt.mpr h1.le)
    simp [cacheGet, hlook, hfresh]
  · have hexp : now + t < now + e2 := by
      exact add_lt_add_left h2 now
    simp [cacheGet, hlook, hexp]
  · have hexp : now + t < now + e2 := by
      exact add_lt_add_left h2 now
    have herase : (cacheGet (cacheSet c k v t now) k (now + e2)).2 =
        cacheErase (cacheSet c k v t now) k := by
      simp [cacheGet, hlook, hexp]
    rw [herase]
    exact lookup_cacheErase _ k

/-- Witness for C3: in an initially empty `Nat`-valued cache, `set` at time
0 with ttl 5 yields the value at time 3, and absence plus eviction at time
6. -/
theorem cache_set_get_ttl_witness :
    (cacheGet (cacheSet ([] : TTLCache Nat) "jagriti_states" 7 5 0)
      "jagriti_states" (0 + 3)).1 = some 7 ∧
    (cacheGet (cacheSet ([] : TTLCache Nat) "jagriti_states" 7 5 0)
      "jagriti_states" (0 + 6)).1 = none ∧
    List.lookup "jagriti_states"
      (cacheGet (cacheSet ([] : TTLCache Nat) "jagriti_states" 7 5 0)
        "jagriti_states" (0 + 6)).2 = none :=
  cache_set_get_ttl [] "jagriti_states" 7 5 0 3 6
    (by decide) (by decide) (by decide)

/-- C4: over any state list with non-empty ids and any commission table
with non-empty ids, `resolve_state_and_commission_ids` implements exactly
the specified two-tier rule, for the state and then for the commissions of
the resolved state: an exact case-insensitive name match always wins; only
when no exact match exists does the first case-insensitive two-way
substring match in source order apply; and with no match at all the lookup
fails carrying the full candidate-name list. -/
theorem resolver_two_tier (states : List StateInfo)
    (commissionsOf : String → List CommissionInfo)
    (state_text commission_text : String)
    (hs : ∀ s ∈ states, s.state_id ≠ "")
    (hc : ∀ sid, ∀ c ∈ commissionsOf sid, c.commission_id ≠ "") :
    resolveStateAndCommissionIds states commissionsOf state_text commission_text =
      specResolveStateAndCommissionIds states commissionsOf state_text commission_text := by
  unfold resolveStateAndCommissionIds specResolveStateAndCommissionIds
  rw [resolveId_eq_specResolveId (states.map fun s => (s.state_text, s.state_id))
    state_text
    (by
      intro it hit
      obtain ⟨s, hsmem, rfl⟩ := List.mem_map.mp hit
      exact hs s hsmem)]
  cases specResolveId (states.map fun s => (s.state_text, s.state_id)) state_text with
  | error names => rfl
  | ok sid =>
      dsimp only
      rw [resolveId_eq_specResolveId ((commissionsOf sid).map fun c =>
        (c.commission_text, c.commission_id)) commission_text
        (by
          intro it hit
          obtain ⟨cm, hcmem, rfl⟩ := List.mem_map.mp hit
          exact hc sid cm hcmem)]

/-- Witness for C4: a concrete state list where "Karnataka" resolves by
exact case-insensitive match and a commission table where "Bangalore"
resolves by substring fallback, matching the spec-side resolver. -/
theorem resolver_two_tier_witness :
    resolveStateAndCommissionIds
      [⟨"KARNATAKA", "29"⟩, ⟨"TAMIL NADU", "33"⟩]
      (fun _ => [⟨"DCDRC Bangalore Urban", "29_1", "29"⟩])
      "Karnataka" "Bangalore" =
    specResolveStateAndCommissionIds
      [⟨"KARNATAKA", "29"⟩, ⟨"TAMIL NADU", "33"⟩]
      (fun _ => [⟨"DCDRC Bangalore Urban", "29_1", "29"⟩])
      "Karnataka" "Bangalore" :=
  resolver_two_tier
    [⟨"KARNATAKA", "29"⟩, ⟨"TAMIL NADU", "33"⟩]
    (fun _ => [⟨"DCDRC Bangalore Urban", "29_1", "29"⟩])
    "Karnataka" "Bangalore"
    (by decide)
    (by
      intro _ c hcm
      simp only [List.mem_singleton] at hcm
      subst hcm
      decide)

/-- C5 (code bug): the not-found outcome is NOT distinguishable to the
caller.  `search_cases` wraps the resolver's `ValueError` into
`JagritiAPIError`, so a search for an unknown state produces exactly the
same route outcome — HTTP 502 with the fixed generic detail — as a plain
transport failure, and the route's `ValueError → 400` branch (which would
have carried the suggestion list) is dead for this path. -/
theorem notfound_collapsed_into_bad_gateway :
    searchRouteOutcome [⟨"KARNATAKA", "29"⟩]
      (fun _ => [⟨"DCDRC Bangalore Urban", "29_1", "29"⟩])
      "NONEXISTENT_STATE" "Some Commission" (.ok ()) =
      .badGateway "Error communicating with Jagriti. Please try again later." ∧
    searchRouteOutcome [⟨"KARNATAKA", "29"⟩]
      (fun _ => [⟨"DCDRC Bangalore Urban", "29_1", "29"⟩])
      "NONEXISTENT_STATE" "Some Commission" (.ok ()) =
      searchRouteOutcome [⟨"KARNATAKA", "29"⟩]
        (fun _ => [⟨"DCDRC Bangalore Urban", "29_1", "29"⟩])
        "KARNATAKA" "DCDRC Bangalore Urban"
        (.error (.api "Request failed: connect error")) ∧
    (∀ d, searchRouteOutcome [⟨"KARNATAKA", "29"⟩]
      (fun _ => [⟨"DCDRC Bangalore Urban", "29_1", "29"⟩])
      "NONEXISTENT_STATE" "Some Commission" (.ok ()) ≠ .badRequest d) := by
  have h1 : searchRouteOutcome [⟨"KARNATAKA", "29"⟩]
      (fun _ => [⟨"DCDRC Bangalore Urban", "29_1", "29"⟩])
      "NONEXISTENT_STATE" "Some Commission" (.ok ()) =
      .badGateway "Error communicating with Jagriti. Please try again later." := by
    decide
  refine ⟨h1, by decide, ?_⟩
  intro d
  rw [h1]
  simp

/-- C6 counterexample: when the on-page summary's first integer is 0, the
code does not return it — the estimate takes over.  With 3 parsed rows at
page 1, perPage 10 and a summary whose first integer is 0, the code returns
3, not the claimed 0. -/
theorem totalCount_first_integer_cex :
    computeTotalCount (some [0]) 3 1 10 = 3 ∧
    computeTotalCount (some [0]) 3 1 10 ≠ 0 := by
  decide

/-- C6 (amended): totalCount equals the first integer of the summary string
when one is present and non-zero; with no summary integer, or a first
integer of zero, the estimate applies: `perPage*page + 1` when the parsed
row count equals `perPage`, else `rows + perPage*(page-1)`.  In particular
10 rows at page 1, perPage 10 with no summary yields at least 11, and 3
rows at page 2, perPage 10 with no summary yields exactly 13. -/
theorem totalCount_amended (s : Option (List Int)) (n page pp : Int) :
    computeTotalCount s n page pp =
      (match s with
       | some (k :: _) =>
           if k = 0 then
             (if n = pp then pp * page + 1 else n + pp * (page - 1))
           else k
       | _ => (if n = pp then pp * page + 1 else n + pp * (page - 1))) ∧
    11 ≤ computeTotalCount none 10 1 10 ∧
    computeTotalCount none 3 2 10 = 13 := by
  refine ⟨?_, by decide, by decide⟩
  cases s with
  | none =>
      by_cases h : n = pp
      · subst h; simp [computeTotalCount]
      · simp [computeTotalCount, h]; ring
  | some l =>
      cases l with
      | nil =>
          by_cases h : n = pp
          · subst h; simp [computeTotalCount]
          · simp [computeTotalCount, h]; ring
      | cons k tl =>
          by_cases hk : k = 0
          · subst hk
            by_cases h : n = pp
            · subst h; simp [computeTotalCount]
            · simp [computeTotalCount, h]; ring
          · simp [computeTotalCount, hk]

/-- C7: date normalization is a total function (never raises) and, for any
behaviour of the external parser (which fails on the empty string, as
dateutil does), returns either the ISO-8601 rendering of the parsed date or
the original string trimmed of surrounding whitespace; with the day-first
parser, "15/03/2023" maps to "2023-03-15" and "not-a-date" is returned
unchanged. -/
theorem normalizeDate_iso_or_trimmed (parse : String → Option YMD)
    (s : String) (hempty : parse "" = none) :
    ((∃ d, parse (pyStrip s) = some d ∧
        normalizeDate parse s = isoOfYMD d) ∨
      (parse (pyStrip s) = none ∧ normalizeDate parse s = pyStrip s)) ∧
    normalizeDate dayFirstSlashParse "15/03/2023" = "2023-03-15" ∧
    normalizeDate dayFirstSlashParse "not-a-date" = "not-a-date" := by
  refine ⟨?_, by decide, by decide⟩
  by_cases hblank : pyStrip s == ""
  · right
    have hs : pyStrip s = "" := by exact eq_of_beq hblank
    rw [hs]
    constructor
    · exact hempty
    · simp [normalizeDate, hs]
  · cases hp : parse (pyStrip s) with
    | some d =>
        left
        exact ⟨d, rfl, by simp [normalizeDate, hblank, hp]⟩
    | none =>
        right
        exact ⟨rfl, by simp [normalizeDate, hblank, hp]⟩

/-- Witness for C7: the day-first parser fails on the empty string and the
whitespace-padded slash date is trimmed, parsed day-first and rendered in
ISO-8601. -/
theorem normalizeDate_iso_or_trimmed_witness :
    ((∃ d, dayFirstSlashParse (pyStrip " 15/03/2023 ") = some d ∧
        normalizeDate dayFirstSlashParse " 15/03/2023 " = isoOfYMD d) ∨
      (dayFirstSlashParse (pyStrip " 15/03/2023 ") = none ∧
        normalizeDate dayFirstSlashParse " 15/03/2023 " =
          pyStrip " 15/03/2023 ")) ∧
    normalizeDate dayFirstSlashParse "15/03/2023" = "2023-03-15" ∧
    normalizeDate dayFirstSlashParse "not-a-date" = "not-a-date" :=
  normalizeDate_iso_or_trimmed dayFirstSlashParse " 15/03/2023 " (by decide)

/-- C8: a result row with fewer than 7 cells parses to nothing and is
dropped without aborting the page: the parsed page equals the concatenation
of the pages around the malformed row, and every remaining row with at
least 7 cells still yields a record. -/
theorem malformed_row_dropped (joinUrl : String → String → String)
    (baseUrl : String) (dateParse : String → Option YMD)
    (rows1 rows2 : List (List Cell)) (bad : List Cell)
    (hbad : bad.length < 7) :
    parseCaseRow joinUrl baseUrl dateParse bad = none ∧
    parseTableRows joinUrl baseUrl dateParse (rows1 ++ bad :: rows2) =
      parseTableRows joinUrl baseUrl dateParse rows1 ++
        parseTableRows joinUrl baseUrl dateParse rows2 ∧
    ∀ r ∈ rows1 ++ rows2, 7 ≤ r.length →
      (parseCaseRow joinUrl baseUrl dateParse r).isSome = true := by
  have hnone : parseCaseRow joinUrl baseUrl dateParse bad = none := by
    simp [parseCaseRow, hbad]
  refine ⟨hnone, ?_, ?_⟩
  · simp [parseTableRows, List.filterMap_append, List.filterMap_cons, hnone]
  · intro r _ h7
    simp [parseCaseRow, Nat.not_lt.mpr h7]

/-- Witness for C8: a 4-cell row between two 7-cell rows is dropped while
both neighbours are parsed. -/
theorem malformed_row_dropped_witness :
    parseCaseRow (fun b l => b ++ l) "https://e-jagriti.gov.in"
      dayFirstSlashParse
      [⟨"CC/9/2023", none⟩, ⟨"Hearing", none⟩, ⟨"15/03/2023", none⟩,
        ⟨"A", none⟩] = none ∧
    parseTableRows (fun b l => b ++ l) "https://e-jagriti.gov.in"
      dayFirstSlashParse
      ([[⟨"CC/1/2023", none⟩, ⟨"Hearing", none⟩, ⟨"15/03/2023", none⟩,
          ⟨"A", none⟩, ⟨"B", none⟩, ⟨"C", none⟩, ⟨"D", some "/doc.pdf"⟩]] ++
        [⟨"CC/9/2023", none⟩, ⟨"Hearing", none⟩, ⟨"15/03/2023", none⟩,
          ⟨"A", none⟩] ::
        [[⟨"CC/2/2023", none⟩, ⟨"Orders", none⟩, ⟨"16/03/2023", none⟩,
          ⟨"E", none⟩, ⟨"F", none⟩, ⟨"G", none⟩, ⟨"H", none⟩]]) =
      parseTableRows (fun b l => b ++ l) "https://e-jagriti.gov.in"
        dayFirstSlashParse
        [[⟨"CC/1/2023", none⟩, ⟨"Hearing", none⟩, ⟨"15/03/2023", none⟩,
          ⟨"A", none⟩, ⟨"B", none⟩, ⟨"C", none⟩, ⟨"D", some "/doc.pdf"⟩]] ++
      parseTableRows (fun b l => b ++ l) "https://e-jagriti.gov.in"
        dayFirstSlashParse
        [[⟨"CC/2/2023", none⟩, ⟨"Orders", none⟩, ⟨"16/03/2023", none⟩,
          ⟨"E", none⟩, ⟨"F", none⟩, ⟨"G", none⟩, ⟨"H", none⟩]] ∧
    ∀ r ∈ [[⟨"CC/1/2023", none⟩, ⟨"Hearing", none⟩, ⟨"15/03/2023", none⟩,
          ⟨"A", none⟩, ⟨"B", none⟩, ⟨"C", none⟩, ⟨"D", some "/doc.pdf"⟩]] ++
        [[⟨"CC/2/2023", none⟩, ⟨"Orders", none⟩, ⟨"16/03/2023", none⟩,
          ⟨"E", none⟩, ⟨"F", none⟩, ⟨"G", none⟩, ⟨"H", none⟩]],
      7 ≤ r.length →
      (parseCaseRow (fun b l => b ++ l) "https://e-jagriti.gov.in"
        dayFirstSlashParse r).isSome = true :=
  malformed_row_dropped (fun b l => b ++ l) "https://e-jagriti.gov.in"
    dayFirstSlashParse
    [[⟨"CC/1/2023", none⟩, ⟨"Hearing", none⟩, ⟨"15/03/2023", none⟩,
      ⟨"A", none⟩, ⟨"B", none⟩, ⟨"C", none⟩, ⟨"D", some "/doc.pdf"⟩]]
    [[⟨"CC/2/2023", none⟩, ⟨"Orders", none⟩, ⟨"16/03/2023", none⟩,
      ⟨"E", none⟩, ⟨"F", none⟩, ⟨"G", none⟩, ⟨"H", none⟩]]
    [⟨"CC/9/2023", none⟩, ⟨"Hearing", none⟩, ⟨"15/03/2023", none⟩,
      ⟨"A", none⟩]
    (by decide)

/-- C9: `fetch_commissions` never returns an empty list; whenever response
parsing yields no commissions (and the cache does not supply a truthy
value), it fabricates, returns and caches the three fallback entries, whose
synthetic ids are `sid_1`, `sid_2`, `sid_3`. -/
theorem commissions_never_empty (sid : String)
    (cached : Option (List CommissionInfo)) (parsed : List CommissionInfo) :
    (fetchCommissionsModel sid cached parsed).1 ≠ [] ∧
    fetchCommissionsModel sid none [] =
      (fallbackCommissions sid, some (fallbackCommissions sid)) ∧
    fetchCommissionsModel sid (some []) [] =
      (fallbackCommissions sid, some (fallbackCommissions sid)) ∧
    (fallbackCommissions sid).map CommissionInfo.commission_id =
      [sid ++ "_1", sid ++ "_2", sid ++ "_3"] := by
  refine ⟨?_, by simp [fetchCommissionsModel], by simp [fetchCommissionsModel],
    fallbackCommissions_ids sid⟩
  cases cached with
  | none =>
      cases parsed with
      | nil => simpa [fetchCommissionsModel] using fallbackCommissions_ne_nil sid
      | cons a t => simp [fetchCommissionsModel]
  | some l =>
      cases l with
      | nil =>
          cases parsed with
          | nil => simpa [fetchCommissionsModel] using fallbackCommissions_ne_nil sid
          | cons a t => simp [fetchCommissionsModel]
      | cons a t => simp [fetchCommissionsModel]

/-- C10: a cached empty list is indistinguishable from a cache miss:
`fetch_states` and `fetch_commissions` test the cached value for Python
truthiness, so a cached `[]` triggers the network path exactly as `none`
does, while a cached non-empty value is returned without a fetch. -/
theorem cached_empty_is_miss (fetched : List StateInfo) (l : List StateInfo)
    (sid : String) (parsed lc : List CommissionInfo) :
    fetchStatesModel (some []) fetched = fetchStatesModel none fetched ∧
    fetchStatesModel none fetched = (fetched, true) ∧
    fetchStatesModel (some l) fetched =
      (if l.isEmpty then (fetched, true) else (l, false)) ∧
    fetchCommissionsModel sid (some []) parsed =
      fetchCommissionsModel sid none parsed ∧
    fetchCommissionsModel sid (some lc) parsed =
      (if lc.isEmpty then fetchCommissionsModel sid none parsed
        else (lc, none)) := by
  refine ⟨rfl, rfl, ?_, rfl, ?_⟩
  · cases l with
    | nil => simp [fetchStatesModel]
    | cons a t => simp [fetchStatesModel]
  · cases lc with
    | nil => simp [fetchCommissionsModel]
    | cons a t => simp [fetchCommissionsModel]

end Lexi

